import Mathlib

/-!
Verification of the audio parameter engine of a browser-based Minimoog
emulator (unit conversions, curve mappings, envelope scheduler, node pool,
URL state codec).

Shallow embedding conventions:
* JavaScript `number` is modelled as `ℝ` where transcendental math
  (`Math.pow`, `Math.log2`, `Math.sqrt`) occurs, and as `ℚ` in the codec and
  scheduler, where only field/order operations occur.  `Math.pow` is
  `Real.rpow`, `Math.round` is `round` (both round half towards +∞ for the
  inputs at issue), `NaN` results are modelled with `Option`.
* The global node pool is modelled by explicit state passing; `AudioNode`
  object identities are `ℕ` node ids handed in by the caller (`createNewNode`
  always returns a fresh object), and `Date.now()` is an explicit argument.
* `URLSearchParams` is modelled as an association list of key/value strings
  (`set` on distinct keys appends in insertion order, `get` returns the first
  match, the empty-string serialization corresponds to the empty list).
-/

namespace Minimoog

/-! ## Constants (src/src/config/constants.ts) -/

/-- `MIDI.A4_FREQUENCY` -/
def MIDI_A4_FREQUENCY : ℝ := 440

/-- `MIDI.A4_MIDI_NOTE` -/
def MIDI_A4_MIDI_NOTE : ℝ := 69

/-- `FILTER_MAPPING.CUTOFF.MIN_FREQ` -/
def FILTER_MAPPING_CUTOFF_MIN_FREQ : ℝ := 20

/-- `FILTER_MAPPING.CUTOFF.MUSICAL_CURVE_POWER` -/
def FILTER_MAPPING_CUTOFF_MUSICAL_CURVE_POWER : ℝ := 1.2

/-- `SYNTH_PARAMS.FILTER.CUTOFF.MIN` -/
def SYNTH_PARAMS_FILTER_CUTOFF_MIN : ℝ := -4

/-- `SYNTH_PARAMS.FILTER.CUTOFF.MAX` -/
def SYNTH_PARAMS_FILTER_CUTOFF_MAX : ℝ := 4

/-! ## Unit conversions (src/src/utils/midiUtils.ts) -/

/-- `midiNoteToFrequency` (midiUtils.ts:171):
`MIDI.A4_FREQUENCY * Math.pow(2, (midiNote - MIDI.A4_MIDI_NOTE) / 12)`. -/
noncomputable def midiNoteToFrequency (midiNote : ℝ) : ℝ :=
  MIDI_A4_FREQUENCY * (2 : ℝ) ^ ((midiNote - MIDI_A4_MIDI_NOTE) / 12)

/-- `frequencyToMidiNote` (midiUtils.ts:180):
`Math.round(12 * Math.log2(frequency / MIDI.A4_FREQUENCY) + MIDI.A4_MIDI_NOTE)`. -/
noncomputable def frequencyToMidiNote (frequency : ℝ) : ℤ :=
  round (12 * Real.logb 2 (frequency / MIDI_A4_FREQUENCY) + MIDI_A4_MIDI_NOTE)

/-- `pitchBendToValue` (midiUtils.ts:285): center at 8192, scaled to ±2 semitones. -/
noncomputable def pitchBendToValue (bend : ℝ) : ℝ :=
  let normalized := (bend - 8192) / 8192
  normalized * 2

/-- `valueToPitchBend` (midiUtils.ts:295): `Math.round((value / 2 + 1) * 8192)`. -/
noncomputable def valueToPitchBend (value : ℝ) : ℤ :=
  let normalized := value / 2
  round ((normalized + 1) * 8192)

/-- The conversion curves of `controlToValue` / `valueToControl`
(the string union `"linear" | "exponential" | "logarithmic"`). -/
inductive ConversionCurve where
  | linear
  | exponential
  | logarithmic
  deriving DecidableEq

/-- `controlToValue` (midiUtils.ts:232). -/
noncomputable def controlToValue (control : ℝ) (range : ℝ × ℝ)
    (curve : ConversionCurve) : ℝ :=
  let normalized := control / 127
  let mn := range.1
  let mx := range.2
  match curve with
  | .exponential => mn + (mx - mn) * normalized ^ (2 : ℝ)
  | .logarithmic => mn + (mx - mn) * Real.log (1 + normalized * 9) / Real.log 10
  | .linear => mn + (mx - mn) * normalized

/-- `valueToControl` (midiUtils.ts:257); note the final `Math.round(result * 127)`. -/
noncomputable def valueToControl (value : ℝ) (range : ℝ × ℝ)
    (curve : ConversionCurve) : ℤ :=
  let mn := range.1
  let mx := range.2
  let normalized := (value - mn) / (mx - mn)
  let result : ℝ :=
    match curve with
    | .exponential => Real.sqrt normalized
    | .logarithmic => ((10 : ℝ) ^ normalized - 1) / 9
    | .linear => normalized
  round (result * 127)

/-! ## Filter-cutoff mapping (paramMappingUtils, src/src/utils/midiUtils.ts:477) -/

/-- `mapCutoff`: clamp the knob value to `[-4, 4]`, normalize to `[0, 1]`,
apply the musical power curve, map into `[20, 3000]` Hz exponentially and
re-clamp.  The local `maxFreq` is the hard 3000 Hz cap from the source. -/
noncomputable def mapCutoff (val : ℝ) : ℝ :=
  let minFreq := FILTER_MAPPING_CUTOFF_MIN_FREQ
  let maxFreq : ℝ := 3000
  let clampedVal :=
    max SYNTH_PARAMS_FILTER_CUTOFF_MIN (min SYNTH_PARAMS_FILTER_CUTOFF_MAX val)
  let normalizedVal := (clampedVal + 4) / 8
  let musicalCurve := normalizedVal ^ FILTER_MAPPING_CUTOFF_MUSICAL_CURVE_POWER
  let result := minFreq * (maxFreq / minFreq) ^ musicalCurve
  max minFreq (min maxFreq result)

/-! ## Claim theorems: C2 and C6 -/

/-- Claim C2: for every integer MIDI note `n` in `[0,127]`,
`frequencyToMidiNote (midiNoteToFrequency n) = n`: the rounded logarithmic
inverse exactly recovers the note from `f = 440 * 2^((n-69)/12)`. -/
theorem frequencyToMidiNote_midiNoteToFrequency (n : ℤ) (_h0 : 0 ≤ n)
    (_h127 : n ≤ 127) : frequencyToMidiNote (midiNoteToFrequency (n : ℝ)) = n := by
  unfold frequencyToMidiNote midiNoteToFrequency MIDI_A4_FREQUENCY MIDI_A4_MIDI_NOTE
  rw [mul_div_cancel_left₀ _ (by norm_num : (440 : ℝ) ≠ 0),
    Real.logb_rpow (by norm_num) (by norm_num)]
  have h : 12 * (((n : ℝ) - 69) / 12) + 69 = (n : ℝ) := by ring
  rw [h, round_intCast]

/-- Witness for C2 at the concrete note 60. -/
theorem frequencyToMidiNote_midiNoteToFrequency_witness :
    frequencyToMidiNote (midiNoteToFrequency ((60 : ℤ) : ℝ)) = 60 :=
  frequencyToMidiNote_midiNoteToFrequency 60 (by norm_num) (by norm_num)

/-- Claim C6 counterexample: the claim asserts
`pitchBendToValue b = 2 * (b - 8191.5) / 8191.5` for every bend, hence value
`+2` at the top bend 16383; the code centers at 8192, so
`pitchBendToValue 16383 = 2 * 8191 / 8192 ≠ 2`. -/
theorem pitchBendToValue_16383_counterexample :
    pitchBendToValue 16383 ≠ 2 * (16383 - 8191.5) / 8191.5 := by
  unfold pitchBendToValue
  norm_num

/-- Claim C6 (amended): `pitchBendToValue` maps `[0, 16383]` through center
`8192` (not 8191.5) to `±2` semitones: bend 0 yields `-2`, bend 8192 yields
`0`, bend 16383 yields `2 * 8191 / 8192` (just under `+2`); and
`valueToPitchBend` exactly inverts it on every integer bend value. -/
theorem pitchBend_center8192_mapping :
    pitchBendToValue 0 = -2 ∧ pitchBendToValue 8192 = 0 ∧
      pitchBendToValue 16383 = 2 * (16383 - 8192) / 8192 ∧
      ∀ b : ℤ, valueToPitchBend (pitchBendToValue (b : ℝ)) = b := by
  refine ⟨by unfold pitchBendToValue; norm_num,
    by unfold pitchBendToValue; norm_num,
    by unfold pitchBendToValue; norm_num, fun b => ?_⟩
  have h : (((b : ℝ) - 8192) / 8192 * 2 / 2 + 1) * 8192 = (b : ℝ) := by
    field_simp
    ring
  simp only [valueToPitchBend, pitchBendToValue]
  rw [h, round_intCast]

/-! ## Claim theorems: C1 and C7 -/

/-- Claim C1 counterexample: the claim asserts that cutoff knob value `0`
maps to `20` Hz; in the code `mapCutoff 0 = 20 * 150 ^ ((1/2) ^ 1.2) ≈ 177`
Hz, strictly above 20 Hz. -/
theorem mapCutoff_zero_counterexample : mapCutoff 0 ≠ 20 := by
  have hp : (0 : ℝ) < (1 / 2 : ℝ) ^ (1.2 : ℝ) :=
    Real.rpow_pos_of_pos (by norm_num) _
  have h150 : (1 : ℝ) < (150 : ℝ) ^ ((1 / 2 : ℝ) ^ (1.2 : ℝ)) :=
    (Real.one_lt_rpow_iff_of_pos (by norm_num)).mpr (Or.inl ⟨by norm_num, hp⟩)
  have hr : (20 : ℝ) < 20 * (150 : ℝ) ^ ((1 / 2 : ℝ) ^ (1.2 : ℝ)) := by nlinarith
  have hval : mapCutoff 0 =
      max 20 (min 3000 (20 * (150 : ℝ) ^ ((1 / 2 : ℝ) ^ (1.2 : ℝ)))) := by
    simp only [mapCutoff, FILTER_MAPPING_CUTOFF_MIN_FREQ,
      FILTER_MAPPING_CUTOFF_MUSICAL_CURVE_POWER, SYNTH_PARAMS_FILTER_CUTOFF_MIN,
      SYNTH_PARAMS_FILTER_CUTOFF_MAX]
    norm_num
  rw [hval]
  exact ne_of_gt (lt_of_lt_of_le (lt_min (by norm_num) hr) (le_max_right 20 _))

/-- Claim C1 (amended): the cutoff knob is clamped to `[-4, 4]` before the
musical curve and the result re-clamped to `[20, 3000]` Hz; the *minimum*
knob value `-4` maps to `20` Hz (as does any value below `-4`), the maximum
`4` maps exactly to the `3000` Hz cap (as does any value above `4`), and
every output lies in `[20, 3000]`.  (Knob `0` maps to an interior value,
not `20` Hz.) -/
theorem mapCutoff_clamped_endpoints :
    mapCutoff (-4) = 20 ∧ mapCutoff 4 = 3000 ∧
      (∀ v : ℝ, v ≤ -4 → mapCutoff v = 20) ∧
      (∀ v : ℝ, 4 ≤ v → mapCutoff v = 3000) ∧
      ∀ v : ℝ, 20 ≤ mapCutoff v ∧ mapCutoff v ≤ 3000 := by
  have hlow : ∀ v : ℝ, v ≤ -4 → mapCutoff v = 20 := by
    intro v hv
    simp only [mapCutoff, FILTER_MAPPING_CUTOFF_MIN_FREQ,
      FILTER_MAPPING_CUTOFF_MUSICAL_CURVE_POWER, SYNTH_PARAMS_FILTER_CUTOFF_MIN,
      SYNTH_PARAMS_FILTER_CUTOFF_MAX]
    rw [min_eq_right (le_trans hv (by norm_num)), max_eq_left hv]
    norm_num [Real.zero_rpow, Real.rpow_zero]
  have hhigh : ∀ v : ℝ, 4 ≤ v → mapCutoff v = 3000 := by
    intro v hv
    simp only [mapCutoff, FILTER_MAPPING_CUTOFF_MIN_FREQ,
      FILTER_MAPPING_CUTOFF_MUSICAL_CURVE_POWER, SYNTH_PARAMS_FILTER_CUTOFF_MIN,
      SYNTH_PARAMS_FILTER_CUTOFF_MAX]
    rw [min_eq_left hv, max_eq_right (by norm_num : (-4 : ℝ) ≤ 4)]
    norm_num [Real.one_rpow, Real.rpow_one]
  refine ⟨hlow (-4) le_rfl, hhigh 4 le_rfl, hlow, hhigh, fun v => ?_⟩
  constructor
  · exact le_max_left _ _
  · simp only [mapCutoff, FILTER_MAPPING_CUTOFF_MIN_FREQ]
    exact max_le (by norm_num) (min_le_left _ _)

/-- Witness for the amended C1 at concrete inputs `-5` and `5` (clamped). -/
theorem mapCutoff_clamped_endpoints_witness :
    mapCutoff (-5) = 20 ∧ mapCutoff 5 = 3000 :=
  ⟨mapCutoff_clamped_endpoints.2.2.1 (-5) (by norm_num),
    mapCutoff_clamped_endpoints.2.2.2.1 5 (by norm_num)⟩

/-- Claim C7 counterexample: the claim asserts the round trip recovers every
(also non-integer) control value within `1e-9` for the linear curve; but
`valueToControl` ends with `Math.round(result * 127)`, so control `0.5` with
target range `[0, 1]` comes back as the integer `1`, off by `0.5`. -/
theorem control_roundtrip_half_counterexample :
    ¬ |((valueToControl (controlToValue (1 / 2) (0, 1) .linear) (0, 1)
        .linear : ℤ) : ℝ) - 1 / 2| ≤ 1e-9 := by
  have h : valueToControl (controlToValue (1 / 2) (0, 1) .linear) (0, 1)
      .linear = 1 := by
    simp only [controlToValue, valueToControl]
    norm_num [round_eq]
  rw [h]
  rw [show (((1 : ℤ) : ℝ)) - 1 / 2 = 1 / 2 by norm_num]
  rw [abs_of_nonneg (by norm_num : (0 : ℝ) ≤ 1 / 2)]
  norm_num

/-- Claim C7 (amended): for every *integer* control value `c ∈ [0,127]` and
every non-degenerate target range, `valueToControl ∘ controlToValue` is the
identity — exactly, not merely within a tolerance — for the linear,
exponential and logarithmic curves.  (For non-integer control values the
final `Math.round` in `valueToControl` makes recovery within `1e-9`
impossible in general.) -/
theorem valueToControl_controlToValue_integer (c : ℤ) (h0 : 0 ≤ c)
    (_h127 : c ≤ 127) (mn mx : ℝ) (hne : mn ≠ mx) (curve : ConversionCurve) :
    valueToControl (controlToValue (c : ℝ) (mn, mx) curve) (mn, mx) curve = c := by
  have hsub : mx - mn ≠ 0 := sub_ne_zero.mpr (Ne.symm hne)
  have hc : (0 : ℝ) ≤ (c : ℝ) / 127 := by positivity
  cases curve
  case linear =>
    simp only [controlToValue, valueToControl]
    rw [show (mn + (mx - mn) * ((c : ℝ) / 127) - mn) / (mx - mn) =
      (c : ℝ) / 127 by field_simp; ring]
    rw [show ((c : ℝ) / 127) * 127 = (c : ℝ) by field_simp, round_intCast]
  case exponential =>
    simp only [controlToValue, valueToControl]
    rw [show (mn + (mx - mn) * ((c : ℝ) / 127) ^ (2 : ℝ) - mn) / (mx - mn) =
      ((c : ℝ) / 127) ^ (2 : ℝ) by field_simp; ring]
    rw [show ((c : ℝ) / 127) ^ (2 : ℝ) = ((c : ℝ) / 127) ^ (2 : ℕ) by
      rw [← Real.rpow_natCast]; norm_num]
    rw [Real.sqrt_sq hc]
    rw [show ((c : ℝ) / 127) * 127 = (c : ℝ) by field_simp, round_intCast]
  case logarithmic =>
    simp only [controlToValue, valueToControl]
    have hpos : (0 : ℝ) < 1 + (c : ℝ) / 127 * 9 := by positivity
    rw [show (mn + (mx - mn) * Real.log (1 + (c : ℝ) / 127 * 9) / Real.log 10
        - mn) / (mx - mn) = Real.logb 10 (1 + (c : ℝ) / 127 * 9) by
      rw [Real.logb, mul_div_assoc]; field_simp; ring]
    rw [Real.rpow_logb (by norm_num) (by norm_num) hpos]
    rw [show (1 + (c : ℝ) / 127 * 9 - 1) / 9 * 127 = (c : ℝ) by field_simp; ring]
    rw [round_intCast]

/-- Witness for the amended C7: concrete round trip of control `100` through
the logarithmic curve into range `[3, 7]`. -/
theorem valueToControl_controlToValue_integer_witness :
    valueToControl (controlToValue ((100 : ℤ) : ℝ) (3, 7) .logarithmic) (3, 7)
      .logarithmic = 100 :=
  valueToControl_controlToValue_integer 100 (by norm_num) (by norm_num) 3 7
    (by norm_num) .logarithmic

/-! ## Note parsing (src/src/utils/midiUtils.ts:125-205) -/

/-- Sharpened spelling of a natural note name. -/
def sharp (s : String) : String := s ++ "#"

/-- The `noteNames` array used by `noteNameToMidiNote` (midiUtils.ts:149):
the literal strings C, C#, D, D#, E, F, F#, G, G#, A, A#, B. -/
def noteNames : List String :=
  ["C", sharp "C", "D", sharp "D", "E", "F", sharp "F", "G", sharp "G",
   "A", sharp "A", "B"]

/-- JS `toUpperCase`, modelled character-wise (the note names involved are
pure ASCII, on which this agrees with the JS string method). -/
def toUpperStr (s : String) : String := String.mk (s.toList.map Char.toUpper)

/-- `noteNameToMidiNote` (midiUtils.ts:148): `indexOf` on the upper-cased
name, `-1` when absent. -/
def noteNameToMidiNote (noteName : String) : ℤ :=
  match noteNames.indexOf? (toUpperStr noteName) with
  | some i => (i : ℤ)
  | none => -1

/-- Decimal value of a digit string (the behaviour of JS `parseInt` on a
string consisting solely of decimal digits). -/
def digitsToNat (ds : List Char) : ℕ :=
  ds.foldl (fun n c => n * 10 + (c.toNat - 48)) 0

/-- `parseInt(note.replace(/\D/g, ""))`: `none` models the `NaN` produced
when the note string contains no digit. -/
def parseOctave (note : String) : Option ℕ :=
  let ds := note.toList.filter Char.isDigit
  if ds.isEmpty then none else some (digitsToNat ds)

/-- `noteToMidiNote` (midiUtils.ts:191): strip digits for the name, parse
the digits as the octave, combine; `none` models the `NaN` result. -/
def noteToMidiNote (note : String) : Option ℤ :=
  let noteName := String.mk (note.toList.filter (fun c => ¬ c.isDigit))
  (parseOctave note).map
    (fun octave => noteNameToMidiNote noteName + ((octave : ℤ) + 1) * 12)

/-- `noteToFrequency` (midiUtils.ts:203). -/
noncomputable def noteToFrequency (note : String) : Option ℝ :=
  (noteToMidiNote note).map (fun m => midiNoteToFrequency (m : ℝ))

/-! ## calculateFrequency (src/src/utils/frequencyUtils.ts:12-30) -/

/-- The local `clamp` helper of `calculateFrequency`:
`Math.max(min, Math.min(max, v))`. -/
noncomputable def clampNum (v mn mx : ℝ) : ℝ := max mn (min mx v)

/-- `calculateFrequency`: clamp tuning/detune to `[-12,12]` and the pitch
wheel to `[0,100]`, convert the wheel to `±2` semitones, apply master tune,
detune, bend and raw cents to the base note frequency, and clamp the result
to `[20, 22050]` Hz.  `none` models the `NaN` of an unparseable note. -/
noncomputable def calculateFrequency (note : String)
    (masterTune detuneSemis pitchWheel detuneCents : ℝ) : Option ℝ :=
  match noteToFrequency note with
  | none => none
  | some nf =>
    let clampedMasterTune := clampNum masterTune (-12) 12
    let clampedDetuneSemis := clampNum detuneSemis (-12) 12
    let clampedPitchWheel := clampNum pitchWheel 0 100
    let bendSemis := (clampedPitchWheel - 50) / 50 * 2
    let baseFreq := nf * (2 : ℝ) ^ (clampedMasterTune / 12)
    let frequency := baseFreq *
      (2 : ℝ) ^ ((clampedDetuneSemis + bendSemis + detuneCents / 100) / 12)
    some (clampNum frequency 20 22050)

/-! ## Envelope scheduler (src/unnamed/part_007) -/

/-- One automation instruction issued against an `AudioParam`; an
`AudioParam` itself is modelled as the trace of instructions issued to it,
in order. -/
inductive AutomationCall where
  | cancelScheduledValues (t : ℚ)
  | setValueAtTime (value : ℚ) (t : ℚ)
  | linearRampToValueAtTime (value : ℚ) (t : ℚ)
  deriving DecidableEq

/-- `param.cancelScheduledValues(t)` appends the instruction to the trace. -/
def cancelScheduledValues (param : List AutomationCall) (t : ℚ) :
    List AutomationCall :=
  param ++ [.cancelScheduledValues t]

/-- `param.setValueAtTime(value, t)`. -/
def setValueAtTime (param : List AutomationCall) (value t : ℚ) :
    List AutomationCall :=
  param ++ [.setValueAtTime value t]

/-- `param.linearRampToValueAtTime(value, t)`. -/
def linearRampToValueAtTime (param : List AutomationCall) (value t : ℚ) :
    List AutomationCall :=
  param ++ [.linearRampToValueAtTime value t]

/-- The options object of `scheduleEnvelopeAttack`. -/
structure EnvelopeAttackOptions where
  start : ℚ
  peak : ℚ
  sustain : ℚ
  attackTime : ℚ
  decayTime : ℚ
  now : ℚ

/-- The options object of `scheduleEnvelopeRelease` (`from`/`to` are renamed
`fromVal`/`toVal`: `from` is a Lean keyword). -/
structure EnvelopeReleaseOptions where
  fromVal : ℚ
  toVal : ℚ
  releaseTime : ℚ
  now : ℚ

/-- `scheduleEnvelopeAttack` (part_007:12-34): the four statements of the
source body, issued in order against the parameter trace. -/
def scheduleEnvelopeAttack (param : List AutomationCall)
    (o : EnvelopeAttackOptions) : List AutomationCall :=
  let p1 := cancelScheduledValues param o.now
  let p2 := setValueAtTime p1 o.start o.now
  let p3 := linearRampToValueAtTime p2 o.peak (o.now + o.attackTime)
  linearRampToValueAtTime p3 o.sustain (o.now + o.attackTime + o.decayTime)

/-- `scheduleEnvelopeRelease` (part_007:45-62). -/
def scheduleEnvelopeRelease (param : List AutomationCall)
    (o : EnvelopeReleaseOptions) : List AutomationCall :=
  let p1 := cancelScheduledValues param o.now
  let p2 := setValueAtTime p1 o.fromVal o.now
  linearRampToValueAtTime p2 o.toVal (o.now + o.releaseTime)

/-! ## Claim theorems: C4 and C10 -/

/-- Claim C4: for every parameter trace and every option record, the
instructions issued by `scheduleEnvelopeAttack` are exactly, in order,
cancel(now), set(start, now), ramp(peak, now+attackTime),
ramp(sustain, now+attackTime+decayTime); and those of
`scheduleEnvelopeRelease` are exactly cancel(now), set(from, now),
ramp(to, now+releaseTime) — the cancel-then-pin-then-ramp order is never
reordered. -/
theorem scheduleEnvelope_exact_order (param : List AutomationCall)
    (a : EnvelopeAttackOptions) (r : EnvelopeReleaseOptions) :
    scheduleEnvelopeAttack param a = param ++
      [.cancelScheduledValues a.now, .setValueAtTime a.start a.now,
        .linearRampToValueAtTime a.peak (a.now + a.attackTime),
        .linearRampToValueAtTime a.sustain (a.now + a.attackTime + a.decayTime)] ∧
    scheduleEnvelopeRelease param r = param ++
      [.cancelScheduledValues r.now, .setValueAtTime r.fromVal r.now,
        .linearRampToValueAtTime r.toVal (r.now + r.releaseTime)] := by
  constructor <;>
    simp [scheduleEnvelopeAttack, scheduleEnvelopeRelease,
      cancelScheduledValues, setValueAtTime, linearRampToValueAtTime]

/-- `clampNum` places its result inside `[mn, mx]` when `mn ≤ mx`. -/
theorem clampNum_mem (v mn mx : ℝ) (h : mn ≤ mx) :
    mn ≤ clampNum v mn mx ∧ clampNum v mn mx ≤ mx :=
  ⟨le_max_left _ _, max_le h (min_le_left _ _)⟩

/-- `clampNum` is the identity on values already inside the range. -/
theorem clampNum_of_mem (v mn mx : ℝ) (h1 : mn ≤ v) (h2 : v ≤ mx) :
    clampNum v mn mx = v := by
  unfold clampNum
  rw [min_eq_right h2, max_eq_right h1]

/-- `clampNum` is idempotent. -/
theorem clampNum_idem (v : ℝ) {mn mx : ℝ} (h : mn ≤ mx) :
    clampNum (clampNum v mn mx) mn mx = clampNum v mn mx :=
  clampNum_of_mem _ _ _ (clampNum_mem v mn mx h).1 (clampNum_mem v mn mx h).2

/-- Claim C10: whenever the parsed base frequency is a finite number (the
result is `some`), `calculateFrequency` returns a frequency in
`[20, 22050]` Hz, for arbitrary real tuning inputs; `masterTune` and
`detuneSemis` are clamped to `[-12,12]` and `pitchWheel` to `[0,100]`
before use (pre-clamping the arguments never changes the result); and
`detuneCents` is applied unclamped — 4800 raw cents (4 octaves) on `"A4"`
yield the full `440 * 16 = 7040` Hz. -/
theorem calculateFrequency_range_and_clamping :
    (∀ (note : String) (mt ds pw dc f : ℝ),
        calculateFrequency note mt ds pw dc = some f → 20 ≤ f ∧ f ≤ 22050) ∧
    (∀ (note : String) (mt ds pw dc : ℝ),
        calculateFrequency note mt ds pw dc =
          calculateFrequency note (clampNum mt (-12) 12) (clampNum ds (-12) 12)
            (clampNum pw 0 100) dc) ∧
    calculateFrequency "A4" 0 0 50 4800 = some 7040 := by
  refine ⟨?_, ?_, ?_⟩
  · intro note mt ds pw dc f h
    unfold calculateFrequency at h
    cases hnote : noteToFrequency note with
    | none => rw [hnote] at h; exact absurd h (by simp)
    | some nf =>
      rw [hnote] at h
      simp only [Option.some.injEq] at h
      rw [← h]
      exact clampNum_mem _ _ _ (by norm_num)
  · intro note mt ds pw dc
    unfold calculateFrequency
    cases noteToFrequency note with
    | none => rfl
    | some nf =>
      simp only
      rw [clampNum_idem mt (by norm_num : (-12 : ℝ) ≤ 12),
        clampNum_idem ds (by norm_num : (-12 : ℝ) ≤ 12),
        clampNum_idem pw (by norm_num : (0 : ℝ) ≤ 100)]
  · have hA4 : noteToMidiNote "A4" = some 69 := by decide
    have hfreq : noteToFrequency "A4" = some 440 := by
      unfold noteToFrequency
      rw [hA4]
      norm_num [midiNoteToFrequency, MIDI_A4_FREQUENCY, MIDI_A4_MIDI_NOTE,
        Real.rpow_zero]
    unfold calculateFrequency
    rw [hfreq]
    simp only [Option.some.injEq]
    rw [clampNum_of_mem 0 (-12) 12 (by norm_num) (by norm_num),
      clampNum_of_mem 50 0 100 (by norm_num) (by norm_num)]
    rw [show ((0 : ℝ) / 12) = 0 by norm_num, Real.rpow_zero]
    rw [show ((0 : ℝ) + (50 - 50) / 50 * 2 + 4800 / 100) / 12 = ((4 : ℕ) : ℝ)
      by norm_num]
    rw [Real.rpow_natCast]
    rw [clampNum_of_mem (440 * 1 * 2 ^ (4 : ℕ)) 20 22050 (by norm_num)
      (by norm_num)]
    norm_num

/-- Witness for C10: the range bound instantiated on the concrete
evaluation `calculateFrequency "A4" 0 0 50 4800 = some 7040`. -/
theorem calculateFrequency_range_and_clamping_witness :
    20 ≤ (7040 : ℝ) ∧ (7040 : ℝ) ≤ 22050 :=
  calculateFrequency_range_and_clamping.1 "A4" 0 0 50 4800 7040
    calculateFrequency_range_and_clamping.2.2

/-! ## Node lifecycle pool (src/unnamed/part_008)

The JS module keeps one `globalPool : EnhancedAudioNodePool | null`; here it
is passed explicitly as `Option EnhancedAudioNodePool` and returned updated.
`AudioNode` object identities are ℕ ids: `createNewNode` always constructs a
fresh object, so each call site passes a fresh id for it; `Date.now()` is an
explicit `now` argument.  The insertion-ordered JS `Map` is a list of
metadata records (keys unique by construction).  `resetNodeState` and
`disconnect` only touch audio-level state of the underlying node, not the
pool bookkeeping, so they have no footprint in this model. -/

/-- `NodeType` (part_008:7-19). -/
inductive NodeType where
  | gain
  | oscillator
  | filter
  | analyser
  | delay
  | convolver
  | waveShaper
  | panner
  | stereoPanner
  | dynamicsCompressor
  | channelSplitter
  | channelMerger
  deriving DecidableEq

/-- `NodePoolConfig` (part_008:22-26). -/
structure NodePoolConfig where
  maxPoolSize : ℕ
  enablePooling : Bool
  cleanupInterval : ℕ
  deriving DecidableEq

/-- `DEFAULT_POOL_CONFIG` (part_008:29-33). -/
def DEFAULT_POOL_CONFIG : NodePoolConfig :=
  { maxPoolSize := 32, enablePooling := true, cleanupInterval := 30000 }

/-- `PooledNode` metadata (part_008:52-58); `node` is the node id. -/
structure PooledNode where
  node : ℕ
  type : NodeType
  createdAt : ℕ
  lastUsed : ℕ
  isActive : Bool
  deriving DecidableEq

/-- The `stats` record (part_008:64-70). -/
structure PoolStats where
  created : ℕ
  reused : ℕ
  disposed : ℕ
  poolHits : ℕ
  poolMisses : ℕ
  deriving DecidableEq

/-- `EnhancedAudioNodePool` (part_008:61-71). -/
structure EnhancedAudioNodePool where
  nodes : List PooledNode
  config : NodePoolConfig
  stats : PoolStats
  deriving DecidableEq

/-- `initializeNodePool` (part_008:81-110) for the first call (no existing
global pool): empty node map, zeroed stats, the merged configuration.  (The
`setInterval` cleanup registration is timer plumbing outside this model.) -/
def initializeNodePool (config : NodePoolConfig) : EnhancedAudioNodePool :=
  { nodes := [], config := config,
    stats := { created := 0, reused := 0, disposed := 0, poolHits := 0,
               poolMisses := 0 } }

/-- The `for (const [node, metadata] of ...)` loop of `getPooledNode`
(part_008:129-141): find the first idle node of the requested type; on a
match mark it active and stamp `lastUsed := now`, leaving every other entry
in place. -/
def acquireScan (nodes : List PooledNode) (type : NodeType) (now : ℕ) :
    Option (ℕ × List PooledNode) :=
  match nodes with
  | [] => none
  | m :: rest =>
    if m.type = type ∧ m.isActive = false then
      some (m.node, { m with isActive := true, lastUsed := now } :: rest)
    else
      match acquireScan rest type now with
      | some (n, rest') => some (n, m :: rest')
      | none => none


/-- `getPooledNode` (part_008:119-161).  Returns the node id handed out and
the updated global pool. -/
def getPooledNode (type : NodeType)
    (globalPool : Option EnhancedAudioNodePool) (freshId now : ℕ) :
    ℕ × Option EnhancedAudioNodePool :=
  match globalPool with
  | none => (freshId, none)
  | some pool =>
    if pool.config.enablePooling = false then (freshId, some pool)
    else
      match acquireScan pool.nodes type now with
      | some (n, nodes') =>
        (n, some { pool with
          nodes := nodes',
          stats := { pool.stats with
            poolHits := pool.stats.poolHits + 1,
            reused := pool.stats.reused + 1 } })
      | none =>
        let stats1 :=
          { pool.stats with poolMisses := pool.stats.poolMisses + 1 }
        if pool.nodes.length < pool.config.maxPoolSize then
          (freshId, some { pool with
            nodes := pool.nodes ++
              [{ node := freshId, type := type, createdAt := now,
                 lastUsed := now, isActive := true }],
            stats := { stats1 with created := stats1.created + 1 } })
        else (freshId, some { pool with stats := stats1 })

/-- `disposeNode` (part_008:194-224): drop the tracked entry (if any) and
count it as disposed; the `disconnect`/`stop` teardown is audio-level. -/
def disposeNode (node : ℕ)
    (globalPool : Option EnhancedAudioNodePool) :
    Option EnhancedAudioNodePool :=
  match globalPool with
  | none => none
  | some pool =>
    if pool.nodes.any (fun m => m.node == node) then
      some { pool with
        nodes := pool.nodes.filter (fun m => !(m.node == node)),
        stats := { pool.stats with disposed := pool.stats.disposed + 1 } }
    else some pool

/-- `releaseNode` (part_008:167-188): with a live pooling-enabled pool, a
tracked node is marked idle with `lastUsed := now` (its connections are
disconnected at the audio level); an untracked node — or any node when
pooling is disabled — is disposed instead. -/
def releaseNode (node : ℕ)
    (globalPool : Option EnhancedAudioNodePool) (now : ℕ) :
    Option EnhancedAudioNodePool :=
  match globalPool with
  | none => disposeNode node none
  | some pool =>
    if pool.config.enablePooling = false then disposeNode node (some pool)
    else if pool.nodes.any (fun m => m.node == node) then
      some { pool with
        nodes := pool.nodes.map (fun m =>
          if m.node == node then { m with isActive := false, lastUsed := now }
          else m) }
    else disposeNode node (some pool)

/-! ## Claim theorems: C3 and C8 -/

/-- Claim C3: starting from a freshly initialized pool (default config,
pooling enabled), `getPooledNode "gain"` returns a handle that is registered
in the pool (`created`/`poolMisses` go to 1); after `releaseNode` of that
handle, the next `getPooledNode "gain"` returns the *same* handle and
increments `reused` and `poolHits` by one while `created` stays unchanged —
for arbitrary node ids and timestamps. -/
theorem pool_acquire_release_reacquire (id1 id2 t1 t2 t3 : ℕ) :
    (getPooledNode .gain (some (initializeNodePool DEFAULT_POOL_CONFIG))
        id1 t1) =
      (id1, some
        { nodes :=
            [{ node := id1, type := .gain, createdAt := t1, lastUsed := t1,
               isActive := true }],
          config := DEFAULT_POOL_CONFIG,
          stats :=
            { created := 1, reused := 0, disposed := 0, poolHits := 0,
              poolMisses := 1 } }) ∧
    (getPooledNode .gain
        (releaseNode id1
          (getPooledNode .gain
            (some (initializeNodePool DEFAULT_POOL_CONFIG)) id1 t1).2 t2)
        id2 t3) =
      (id1, some
        { nodes :=
            [{ node := id1, type := .gain, createdAt := t1, lastUsed := t3,
               isActive := true }],
          config := DEFAULT_POOL_CONFIG,
          stats :=
            { created := 1, reused := 1, disposed := 0, poolHits := 1,
              poolMisses := 1 } }) := by
  constructor <;>
    simp [getPooledNode, releaseNode, acquireScan, initializeNodePool,
      DEFAULT_POOL_CONFIG, disposeNode]

/-- A pool already at its capacity ceiling (`maxPoolSize = 1`) whose single
tracked gain node is active. -/
def atCapacityPool : EnhancedAudioNodePool :=
  { nodes :=
      [{ node := 5, type := .gain, createdAt := 0, lastUsed := 0,
         isActive := true }],
    config :=
      { maxPoolSize := 1, enablePooling := true, cleanupInterval := 30000 },
    stats :=
      { created := 1, reused := 0, disposed := 0, poolHits := 0,
        poolMisses := 1 } }

/-- Claim C8 counterexample: on a pool miss at capacity, the code increments
`poolMisses` but *not* `created` (the `created++` sits inside the
capacity-guarded registration branch): acquiring a gain node from
`atCapacityPool` (where `created = 1`) returns the fresh node unregistered
with `poolMisses = 2` and `created` still `1`, while the claim requires
`created` to be incremented on every miss. -/
theorem getPooledNode_created_not_incremented_at_capacity :
    getPooledNode .gain (some atCapacityPool) 7 10 =
      (7, some { atCapacityPool with
                 stats :=
                   { created := 1, reused := 0, disposed := 0, poolHits := 0,
                     poolMisses := 2 } }) := by
  decide

/-- Claim C8 (amended): on every pool miss with pooling enabled, the fresh
node id is returned and `poolMisses` is incremented; the node is registered
for future reuse if and only if the tracked-node count is below
`maxPoolSize`, and `created` is incremented exactly in that case — at
capacity the node comes back unregistered with `created` unchanged. -/
theorem getPooledNode_miss_registration (pool : EnhancedAudioNodePool)
    (type : NodeType) (freshId now : ℕ)
    (hen : pool.config.enablePooling = true)
    (hmiss : acquireScan pool.nodes type now = none) :
    (getPooledNode type (some pool) freshId now).1 = freshId ∧
    ∃ p', (getPooledNode type (some pool) freshId now).2 = some p' ∧
      p'.stats.poolMisses = pool.stats.poolMisses + 1 ∧
      (pool.nodes.length < pool.config.maxPoolSize →
        p'.stats.created = pool.stats.created + 1 ∧
        p'.nodes = pool.nodes ++
          [{ node := freshId, type := type, createdAt := now, lastUsed := now,
             isActive := true }]) ∧
      (¬ pool.nodes.length < pool.config.maxPoolSize →
        p'.stats.created = pool.stats.created ∧ p'.nodes = pool.nodes) := by
  by_cases hcap : pool.nodes.length < pool.config.maxPoolSize
  · simp [getPooledNode, hen, hmiss, hcap]
  · simp [getPooledNode, hen, hmiss, hcap]

/-- Witness for the amended C8: a miss on the empty freshly initialized
pool (below capacity). -/
theorem getPooledNode_miss_registration_witness :
    (getPooledNode .oscillator
        (some (initializeNodePool DEFAULT_POOL_CONFIG)) 3 9).1 = 3 ∧
    ∃ p', (getPooledNode .oscillator
        (some (initializeNodePool DEFAULT_POOL_CONFIG)) 3 9).2 = some p' ∧
      p'.stats.poolMisses =
        (initializeNodePool DEFAULT_POOL_CONFIG).stats.poolMisses + 1 ∧
      ((initializeNodePool DEFAULT_POOL_CONFIG).nodes.length <
          (initializeNodePool DEFAULT_POOL_CONFIG).config.maxPoolSize →
        p'.stats.created =
          (initializeNodePool DEFAULT_POOL_CONFIG).stats.created + 1 ∧
        p'.nodes = (initializeNodePool DEFAULT_POOL_CONFIG).nodes ++
          [{ node := 3, type := .oscillator, createdAt := 9, lastUsed := 9,
             isActive := true }]) ∧
      (¬ (initializeNodePool DEFAULT_POOL_CONFIG).nodes.length <
          (initializeNodePool DEFAULT_POOL_CONFIG).config.maxPoolSize →
        p'.stats.created =
          (initializeNodePool DEFAULT_POOL_CONFIG).stats.created ∧
        p'.nodes = (initializeNodePool DEFAULT_POOL_CONFIG).nodes) :=
  getPooledNode_miss_registration (initializeNodePool DEFAULT_POOL_CONFIG)
    .oscillator 3 9 (by decide) (by decide)

/-! ## State codec (src/src/utils/urlUtils.ts, helpers in src/unnamed/part_006)

`URLSearchParams` is modelled as an association list in insertion order:
`set` on the pairwise-distinct keys of the encoder appends, `get` returns
the first match (`none` for JS `null`), and the `params.toString() === ""`
check corresponds to the empty list.  JS numbers are `ℚ`; the number
serialization `Number#toString` / `parseFloat` pair is abstracted as
`numToString : ℚ → String` and `parseFloat : String → Option ℚ`, where
`none` models `NaN` (parse failure).  Fields the decoder fills by a blind
`as`-cast from `params.get(...)` are `Option String` valued (JS `null` when
the key is missing). -/

/-- `oscillator1/2/3` in `SynthState` (waveform/range are string-literal
unions at runtime). -/
structure OscillatorState where
  waveform : String
  frequency : ℚ
  range : String
  enabled : Bool
  deriving DecidableEq

/-- One mixer source (`mixer.osc1/osc2/osc3/external`). -/
structure MixerSourceState where
  enabled : Bool
  volume : ℚ
  deriving DecidableEq

/-- `mixer.noise`. -/
structure MixerNoiseState where
  enabled : Bool
  volume : ℚ
  noiseType : String
  deriving DecidableEq

/-- `mixer`. -/
structure MixerState where
  osc1 : MixerSourceState
  osc2 : MixerSourceState
  osc3 : MixerSourceState
  noise : MixerNoiseState
  external : MixerSourceState
  deriving DecidableEq

/-- `auxOutput`. -/
structure AuxOutputState where
  enabled : Bool
  volume : ℚ
  deriving DecidableEq

/-- The fields of `SynthState` read by `saveStateToURL`. -/
structure SynthState where
  oscillator1 : OscillatorState
  oscillator2 : OscillatorState
  oscillator3 : OscillatorState
  mixer : MixerState
  filterCutoff : ℚ
  filterEmphasis : ℚ
  filterContourAmount : ℚ
  filterAttack : ℚ
  filterDecay : ℚ
  filterSustain : ℚ
  filterModulationOn : Bool
  loudnessAttack : ℚ
  loudnessDecay : ℚ
  loudnessSustain : ℚ
  lfoWaveform : String
  lfoRate : ℚ
  modMix : ℚ
  oscillatorModulationOn : Bool
  glideOn : Bool
  glideTime : ℚ
  mainVolume : ℚ
  isMainActive : Bool
  keyboardControl1 : Bool
  keyboardControl2 : Bool
  osc3Control : Bool
  osc3FilterEgSwitch : Bool
  noiseLfoSwitch : Bool
  decaySwitchOn : Bool
  masterTune : ℚ
  pitchWheel : ℚ
  modWheel : ℚ
  tunerOn : Bool
  auxOutput : AuxOutputState
  deriving DecidableEq

/-- An oscillator group as the decoder builds it: the `as`-cast fields keep
the JS `string | null`, `frequency` keeps the possibly-`NaN` `parseFloat`
result. -/
structure OscillatorStateD where
  waveform : Option String
  frequency : Option ℚ
  range : Option String
  enabled : Bool
  deriving DecidableEq

/-- A decoded mixer source (`parseFloat` may yield `NaN`). -/
structure MixerSourceStateD where
  enabled : Bool
  volume : Option ℚ
  deriving DecidableEq

/-- The decoded `mixer.noise` (`noiseType` is totalized by `|| "white"`). -/
structure MixerNoiseStateD where
  enabled : Bool
  volume : Option ℚ
  noiseType : String
  deriving DecidableEq

/-- The decoded `mixer`. -/
structure MixerStateD where
  osc1 : MixerSourceStateD
  osc2 : MixerSourceStateD
  osc3 : MixerSourceStateD
  noise : MixerNoiseStateD
  external : MixerSourceStateD
  deriving DecidableEq

/-- The decoded `auxOutput` (`aux_volume` goes through `parseOrDefault`,
hence never `NaN`). -/
structure AuxOutputStateD where
  enabled : Bool
  volume : ℚ
  deriving DecidableEq

/-- `Partial<SynthState>` as `loadStateFromURL` fills it: `none` = the field
was not assigned (its group's anchor key was absent). -/
structure PartialSynthState where
  oscillator1 : Option OscillatorStateD
  oscillator2 : Option OscillatorStateD
  oscillator3 : Option OscillatorStateD
  mixer : Option MixerStateD
  filterCutoff : Option ℚ
  filterEmphasis : Option ℚ
  filterContourAmount : Option ℚ
  filterAttack : Option ℚ
  filterDecay : Option ℚ
  filterSustain : Option ℚ
  filterModulationOn : Option Bool
  loudnessAttack : Option ℚ
  loudnessDecay : Option ℚ
  loudnessSustain : Option ℚ
  lfoWaveform : Option String
  lfoRate : Option ℚ
  modMix : Option ℚ
  oscillatorModulationOn : Option Bool
  glideOn : Option Bool
  glideTime : Option ℚ
  mainVolume : Option ℚ
  isMainActive : Option Bool
  keyboardControl1 : Option Bool
  keyboardControl2 : Option Bool
  osc3Control : Option Bool
  osc3FilterEgSwitch : Option Bool
  noiseLfoSwitch : Option Bool
  decaySwitchOn : Option Bool
  masterTune : Option ℚ
  pitchWheel : Option ℚ
  modWheel : Option ℚ
  tunerOn : Option Bool
  auxOutput : Option AuxOutputStateD
  deriving DecidableEq

/-- `params.get(key)`: the first value stored under `key`, `none` for JS
`null`. -/
def getParam (params : List (String × String)) (key : String) :
    Option String :=
  match params with
  | [] => none
  | (k, v) :: rest => if k = key then some v else getParam rest key

/-- `params.has(key)`. -/
def hasParam (params : List (String × String)) (key : String) : Bool :=
  (getParam params key).isSome

/-- `params.get(key) || dflt`: JS `null` *and* the empty string are falsy. -/
def getOrFalsy (params : List (String × String)) (key dflt : String) :
    String :=
  match getParam params key with
  | none => dflt
  | some s => if s = "" then dflt else s

/-- `params.get(key) === "true"` (`null` compares unequal). -/
def getBool (params : List (String × String)) (key : String) : Bool :=
  match getParam params key with
  | none => false
  | some s => s == "true"

/-- `clampParameter` (src/src/utils/audioUtils.ts:8):
`Math.max(min, Math.min(max, value))`. -/
def clampParameter (value mn mx : ℚ) : ℚ := max mn (min mx value)

/-- `parseAndClamp` (part_006:6-15): parse (`value ?? ""`), default on
`NaN`, clamp otherwise. -/
def parseAndClamp (parseFloat : String → Option ℚ) (value : Option String)
    (mn mx defaultValue : ℚ) : ℚ :=
  match parseFloat (value.getD "") with
  | none => defaultValue
  | some parsed => clampParameter parsed mn mx

/-- `parseOrDefault` (part_006:20-26): parse (`value ?? ""`), default on
`NaN`. -/
def parseOrDefault (parseFloat : String → Option ℚ) (value : Option String)
    (defaultValue : ℚ) : ℚ :=
  match parseFloat (value.getD "") with
  | none => defaultValue
  | some parsed => parsed

/-- JS `Boolean#toString`. -/
def boolToString (b : Bool) : String := if b then "true" else "false"

/-- `saveStateToURL` (urlUtils.ts:13-86): the 53 `params.set` calls, in
source order, on pairwise-distinct keys. -/
def saveStateToURL (numToString : ℚ → String) (state : SynthState) :
    List (String × String) :=
  [("osc1_waveform", state.oscillator1.waveform),
   ("osc1_freq", numToString state.oscillator1.frequency),
   ("osc1_range", state.oscillator1.range),
   ("osc1_enabled", boolToString state.oscillator1.enabled),
   ("osc2_waveform", state.oscillator2.waveform),
   ("osc2_freq", numToString state.oscillator2.frequency),
   ("osc2_range", state.oscillator2.range),
   ("osc2_enabled", boolToString state.oscillator2.enabled),
   ("osc3_waveform", state.oscillator3.waveform),
   ("osc3_freq", numToString state.oscillator3.frequency),
   ("osc3_range", state.oscillator3.range),
   ("osc3_enabled", boolToString state.oscillator3.enabled),
   ("mix_osc1_enabled", boolToString state.mixer.osc1.enabled),
   ("mix_osc1_vol", numToString state.mixer.osc1.volume),
   ("mix_osc2_enabled", boolToString state.mixer.osc2.enabled),
   ("mix_osc2_vol", numToString state.mixer.osc2.volume),
   ("mix_osc3_enabled", boolToString state.mixer.osc3.enabled),
   ("mix_osc3_vol", numToString state.mixer.osc3.volume),
   ("mix_noise_enabled", boolToString state.mixer.noise.enabled),
   ("mix_noise_vol", numToString state.mixer.noise.volume),
   ("mix_noise_type", state.mixer.noise.noiseType),
   ("mix_ext_enabled", boolToString state.mixer.external.enabled),
   ("mix_ext_vol", numToString state.mixer.external.volume),
   ("filter_cutoff", numToString state.filterCutoff),
   ("filter_emphasis", numToString state.filterEmphasis),
   ("filter_contour", numToString state.filterContourAmount),
   ("filter_attack", numToString state.filterAttack),
   ("filter_decay", numToString state.filterDecay),
   ("filter_sustain", numToString state.filterSustain),
   ("filter_mod_on", boolToString state.filterModulationOn),
   ("loudness_attack", numToString state.loudnessAttack),
   ("loudness_decay", numToString state.loudnessDecay),
   ("loudness_sustain", numToString state.loudnessSustain),
   ("lfo_waveform", state.lfoWaveform),
   ("lfo_rate", numToString state.lfoRate),
   ("mod_mix", numToString state.modMix),
   ("osc_mod_on", boolToString state.oscillatorModulationOn),
   ("glide_on", boolToString state.glideOn),
   ("glide_time", numToString state.glideTime),
   ("main_volume", numToString state.mainVolume),
   ("main_active", boolToString state.isMainActive),
   ("keyboard_control1", boolToString state.keyboardControl1),
   ("keyboard_control2", boolToString state.keyboardControl2),
   ("osc3_control", boolToString state.osc3Control),
   ("osc3_filter_eg", boolToString state.osc3FilterEgSwitch),
   ("noise_lfo_switch", boolToString state.noiseLfoSwitch),
   ("decay_switch", boolToString state.decaySwitchOn),
   ("master_tune", numToString state.masterTune),
   ("pitch_wheel", numToString state.pitchWheel),
   ("mod_wheel", numToString state.modWheel),
   ("tuner_on", boolToString state.tunerOn),
   ("aux_enabled", boolToString state.auxOutput.enabled),
   ("aux_volume", numToString state.auxOutput.volume)]

/-! `loadStateFromURL` (urlUtils.ts:92-228) is split into one small
definition per assigned field (the monolithic guarded structure literal
defeats Lean's code generator); each mirrors the corresponding guarded
assignment of the source, and `loadStateFromURL` assembles them. -/

/-- The `oscillator1` assignment of `loadStateFromURL` (urlUtils.ts:102-109). -/
def load_oscillator1 (parseFloat : String → Option ℚ)
    (params : List (String × String)) : Option OscillatorStateD :=
        if hasParam params "osc1_waveform" then
          some
            { waveform := getParam params "osc1_waveform",
              frequency := parseFloat (getOrFalsy params "osc1_freq" "440"),
              range := getParam params "osc1_range",
              enabled := getBool params "osc1_enabled" }
        else none

/-- The `oscillator2` assignment of `loadStateFromURL` (urlUtils.ts:111-118). -/
def load_oscillator2 (parseFloat : String → Option ℚ)
    (params : List (String × String)) : Option OscillatorStateD :=
        if hasParam params "osc2_waveform" then
          some
            { waveform := getParam params "osc2_waveform",
              frequency := parseFloat (getOrFalsy params "osc2_freq" "0"),
              range := getParam params "osc2_range",
              enabled := getBool params "osc2_enabled" }
        else none

/-- The `oscillator3` assignment of `loadStateFromURL` (urlUtils.ts:120-127). -/
def load_oscillator3 (parseFloat : String → Option ℚ)
    (params : List (String × String)) : Option OscillatorStateD :=
        if hasParam params "osc3_waveform" then
          some
            { waveform := getParam params "osc3_waveform",
              frequency := parseFloat (getOrFalsy params "osc3_freq" "0"),
              range := getParam params "osc3_range",
              enabled := getBool params "osc3_enabled" }
        else none

/-- The `mixer` assignment of `loadStateFromURL` (urlUtils.ts:130-155). -/
def load_mixer (parseFloat : String → Option ℚ)
    (params : List (String × String)) : Option MixerStateD :=
        if hasParam params "mix_osc1_enabled" then
          some
            { osc1 :=
                { enabled := getBool params "mix_osc1_enabled",
                  volume :=
                    parseFloat (getOrFalsy params "mix_osc1_vol" "0") },
              osc2 :=
                { enabled := getBool params "mix_osc2_enabled",
                  volume :=
                    parseFloat (getOrFalsy params "mix_osc2_vol" "0") },
              osc3 :=
                { enabled := getBool params "mix_osc3_enabled",
                  volume :=
                    parseFloat (getOrFalsy params "mix_osc3_vol" "0") },
              noise :=
                { enabled := getBool params "mix_noise_enabled",
                  volume :=
                    parseFloat (getOrFalsy params "mix_noise_vol" "0"),
                  noiseType := getOrFalsy params "mix_noise_type" "white" },
              external :=
                { enabled := getBool params "mix_ext_enabled",
                  volume :=
                    parseFloat (getOrFalsy params "mix_ext_vol" "0") } }
        else none

/-- The `filterCutoff` assignment of `loadStateFromURL` (urlUtils.ts:158-159). -/
def load_filterCutoff (parseFloat : String → Option ℚ)
    (params : List (String × String)) : Option ℚ :=
        if hasParam params "filter_cutoff" then
          some (parseAndClamp parseFloat (getParam params "filter_cutoff")
            (-4) 4 0)
        else none

/-- The `filterEmphasis` assignment of `loadStateFromURL` (urlUtils.ts:160). -/
def load_filterEmphasis (parseFloat : String → Option ℚ)
    (params : List (String × String)) : Option ℚ :=
        if hasParam params "filter_cutoff" then
          some (parseOrDefault parseFloat
            (getParam params "filter_emphasis") 5)
        else none

/-- The `filterContourAmount` assignment of `loadStateFromURL` (urlUtils.ts:161). -/
def load_filterContourAmount (parseFloat : String → Option ℚ)
    (params : List (String × String)) : Option ℚ :=
        if hasParam params "filter_cutoff" then
          some (parseOrDefault parseFloat
            (getParam params "filter_contour") 5)
        else none

/-- The `filterAttack` assignment of `loadStateFromURL` (urlUtils.ts:162). -/
def load_filterAttack (parseFloat : String → Option ℚ)
    (params : List (String × String)) : Option ℚ :=
        if hasParam params "filter_cutoff" then
          some (parseOrDefault parseFloat
            (getParam params "filter_attack") (1 / 2))
        else none

/-- The `filterDecay` assignment of `loadStateFromURL` (urlUtils.ts:163). -/
def load_filterDecay (parseFloat : String → Option ℚ)
    (params : List (String × String)) : Option ℚ :=
        if hasParam params "filter_cutoff" then
          some (parseOrDefault parseFloat (getParam params "filter_decay") 0)
        else none

/-- The `filterSustain` assignment of `loadStateFromURL` (urlUtils.ts:164). -/
def load_filterSustain (parseFloat : String → Option ℚ)
    (params : List (String × String)) : Option ℚ :=
        if hasParam params "filter_cutoff" then
          some (parseOrDefault parseFloat
            (getParam params "filter_sustain") 0)
        else none

/-- The `filterModulationOn` assignment of `loadStateFromURL` (urlUtils.ts:165). -/
def load_filterModulationOn (params : List (String × String)) : Option Bool :=
        if hasParam params "filter_cutoff" then
          some (getBool params "filter_mod_on")
        else none

/-- The `loudnessAttack` assignment of `loadStateFromURL` (urlUtils.ts:169-170). -/
def load_loudnessAttack (parseFloat : String → Option ℚ)
    (params : List (String × String)) : Option ℚ :=
        if hasParam params "loudness_attack" then
          some (parseOrDefault parseFloat
            (getParam params "loudness_attack") (1 / 2))
        else none

/-- The `loudnessDecay` assignment of `loadStateFromURL` (urlUtils.ts:171). -/
def load_loudnessDecay (parseFloat : String → Option ℚ)
    (params : List (String × String)) : Option ℚ :=
        if hasParam params "loudness_attack" then
          some (parseOrDefault parseFloat
            (getParam params "loudness_decay") 0)
        else none

/-- The `loudnessSustain` assignment of `loadStateFromURL` (urlUtils.ts:172). -/
def load_loudnessSustain (parseFloat : String → Option ℚ)
    (params : List (String × String)) : Option ℚ :=
        if hasParam params "loudness_attack" then
          some (parseOrDefault parseFloat
            (getParam params "loudness_sustain") 5)
        else none

/-- The `lfoWaveform` assignment of `loadStateFromURL` (urlUtils.ts:176-177). -/
def load_lfoWaveform (params : List (String × String)) : Option String :=
        if hasParam params "lfo_waveform" then
          getParam params "lfo_waveform"
        else none

/-- The `lfoRate` assignment of `loadStateFromURL` (urlUtils.ts:178). -/
def load_lfoRate (parseFloat : String → Option ℚ)
    (params : List (String × String)) : Option ℚ :=
        if hasParam params "lfo_waveform" then
          some (parseOrDefault parseFloat (getParam params "lfo_rate") 5)
        else none

/-- The `modMix` assignment of `loadStateFromURL` (urlUtils.ts:179). -/
def load_modMix (parseFloat : String → Option ℚ)
    (params : List (String × String)) : Option ℚ :=
        if hasParam params "lfo_waveform" then
          some (parseOrDefault parseFloat (getParam params "mod_mix") 0)
        else none

/-- The `oscillatorModulationOn` assignment of `loadStateFromURL` (urlUtils.ts:180). -/
def load_oscillatorModulationOn (params : List (String × String)) : Option Bool :=
        if hasParam params "lfo_waveform" then
          some (getBool params "osc_mod_on")
        else none

/-- The `glideOn` assignment of `loadStateFromURL` (urlUtils.ts:184-185). -/
def load_glideOn (params : List (String × String)) : Option Bool :=
        if hasParam params "glide_on" then
          some (getBool params "glide_on")
        else none

/-- The `glideTime` assignment of `loadStateFromURL` (urlUtils.ts:186). -/
def load_glideTime (parseFloat : String → Option ℚ)
    (params : List (String × String)) : Option ℚ :=
        if hasParam params "glide_on" then
          some (parseOrDefault parseFloat
            (getParam params "glide_time") (1 / 10))
        else none

/-- The `mainVolume` assignment of `loadStateFromURL` (urlUtils.ts:189-190). -/
def load_mainVolume (parseFloat : String → Option ℚ)
    (params : List (String × String)) : Option ℚ :=
        if hasParam params "main_volume" then
          some (parseOrDefault parseFloat
            (getParam params "main_volume") (5 / 2))
        else none

/-- The `isMainActive` assignment of `loadStateFromURL` (urlUtils.ts:191). -/
def load_isMainActive (params : List (String × String)) : Option Bool :=
        if hasParam params "main_volume" then
          some (getBool params "main_active")
        else none

/-- The `keyboardControl1` assignment of `loadStateFromURL` (urlUtils.ts:194-195). -/
def load_keyboardControl1 (params : List (String × String)) : Option Bool :=
        if hasParam params "keyboard_control1" then
          some (getBool params "keyboard_control1")
        else none

/-- The `keyboardControl2` assignment of `loadStateFromURL` (urlUtils.ts:196). -/
def load_keyboardControl2 (params : List (String × String)) : Option Bool :=
        if hasParam params "keyboard_control1" then
          some (getBool params "keyboard_control2")
        else none

/-- The `osc3Control` assignment of `loadStateFromURL` (urlUtils.ts:199-200). -/
def load_osc3Control (params : List (String × String)) : Option Bool :=
        if hasParam params "osc3_control" then
          some (getBool params "osc3_control")
        else none

/-- The `osc3FilterEgSwitch` assignment of `loadStateFromURL` (urlUtils.ts:201). -/
def load_osc3FilterEgSwitch (params : List (String × String)) : Option Bool :=
        if hasParam params "osc3_control" then
          some (getBool params "osc3_filter_eg")
        else none

/-- The `noiseLfoSwitch` assignment of `loadStateFromURL` (urlUtils.ts:204-205). -/
def load_noiseLfoSwitch (params : List (String × String)) : Option Bool :=
        if hasParam params "noise_lfo_switch" then
          some (getBool params "noise_lfo_switch")
        else none

/-- The `decaySwitchOn` assignment of `loadStateFromURL` (urlUtils.ts:206). -/
def load_decaySwitchOn (params : List (String × String)) : Option Bool :=
        if hasParam params "noise_lfo_switch" then
          some (getBool params "decay_switch")
        else none

/-- The `masterTune` assignment of `loadStateFromURL` (urlUtils.ts:209-210). -/
def load_masterTune (parseFloat : String → Option ℚ)
    (params : List (String × String)) : Option ℚ :=
        if hasParam params "master_tune" then
          some (parseOrDefault parseFloat (getParam params "master_tune") 0)
        else none

/-- The `pitchWheel` assignment of `loadStateFromURL` (urlUtils.ts:211). -/
def load_pitchWheel (parseFloat : String → Option ℚ)
    (params : List (String × String)) : Option ℚ :=
        if hasParam params "master_tune" then
          some (parseOrDefault parseFloat (getParam params "pitch_wheel") 50)
        else none

/-- The `modWheel` assignment of `loadStateFromURL` (urlUtils.ts:212). -/
def load_modWheel (parseFloat : String → Option ℚ)
    (params : List (String × String)) : Option ℚ :=
        if hasParam params "master_tune" then
          some (parseOrDefault parseFloat (getParam params "mod_wheel") 50)
        else none

/-- The `tunerOn` assignment of `loadStateFromURL` (urlUtils.ts:215-216). -/
def load_tunerOn (params : List (String × String)) : Option Bool :=
        if hasParam params "tuner_on" then
          some (getBool params "tuner_on")
        else none

/-- The `auxOutput` assignment of `loadStateFromURL` (urlUtils.ts:220-225). -/
def load_auxOutput (parseFloat : String → Option ℚ)
    (params : List (String × String)) : Option AuxOutputStateD :=
        if hasParam params "aux_enabled" then
          some
            { enabled := getBool params "aux_enabled",
              volume :=
                parseOrDefault parseFloat (getParam params "aux_volume") 0 }
        else none

/-- `loadStateFromURL` (urlUtils.ts:92-228): `null` on an empty query
string, otherwise the sparse overlay of the guarded group assignments
above - each group is populated if and only if its anchor key is present. -/
def loadStateFromURL (parseFloat : String → Option ℚ)
    (params : List (String × String)) : Option PartialSynthState :=
  if params.isEmpty then none
  else
    some
      { oscillator1 := load_oscillator1 parseFloat params,
        oscillator2 := load_oscillator2 parseFloat params,
        oscillator3 := load_oscillator3 parseFloat params,
        mixer := load_mixer parseFloat params,
        filterCutoff := load_filterCutoff parseFloat params,
        filterEmphasis := load_filterEmphasis parseFloat params,
        filterContourAmount := load_filterContourAmount parseFloat params,
        filterAttack := load_filterAttack parseFloat params,
        filterDecay := load_filterDecay parseFloat params,
        filterSustain := load_filterSustain parseFloat params,
        filterModulationOn := load_filterModulationOn params,
        loudnessAttack := load_loudnessAttack parseFloat params,
        loudnessDecay := load_loudnessDecay parseFloat params,
        loudnessSustain := load_loudnessSustain parseFloat params,
        lfoWaveform := load_lfoWaveform params,
        lfoRate := load_lfoRate parseFloat params,
        modMix := load_modMix parseFloat params,
        oscillatorModulationOn := load_oscillatorModulationOn params,
        glideOn := load_glideOn params,
        glideTime := load_glideTime parseFloat params,
        mainVolume := load_mainVolume parseFloat params,
        isMainActive := load_isMainActive params,
        keyboardControl1 := load_keyboardControl1 params,
        keyboardControl2 := load_keyboardControl2 params,
        osc3Control := load_osc3Control params,
        osc3FilterEgSwitch := load_osc3FilterEgSwitch params,
        noiseLfoSwitch := load_noiseLfoSwitch params,
        decaySwitchOn := load_decaySwitchOn params,
        masterTune := load_masterTune parseFloat params,
        pitchWheel := load_pitchWheel parseFloat params,
        modWheel := load_modWheel parseFloat params,
        tunerOn := load_tunerOn params,
        auxOutput := load_auxOutput parseFloat params }

/-- The overlay the round trip is expected to produce from a fully
populated state: every group present, every field carrying the encoded
state's value. -/
def fullOverlay (state : SynthState) : PartialSynthState :=
  { oscillator1 :=
      some
        { waveform := some state.oscillator1.waveform,
          frequency := some state.oscillator1.frequency,
          range := some state.oscillator1.range,
          enabled := state.oscillator1.enabled },
    oscillator2 :=
      some
        { waveform := some state.oscillator2.waveform,
          frequency := some state.oscillator2.frequency,
          range := some state.oscillator2.range,
          enabled := state.oscillator2.enabled },
    oscillator3 :=
      some
        { waveform := some state.oscillator3.waveform,
          frequency := some state.oscillator3.frequency,
          range := some state.oscillator3.range,
          enabled := state.oscillator3.enabled },
    mixer :=
      some
        { osc1 :=
            { enabled := state.mixer.osc1.enabled,
              volume := some state.mixer.osc1.volume },
          osc2 :=
            { enabled := state.mixer.osc2.enabled,
              volume := some state.mixer.osc2.volume },
          osc3 :=
            { enabled := state.mixer.osc3.enabled,
              volume := some state.mixer.osc3.volume },
          noise :=
            { enabled := state.mixer.noise.enabled,
              volume := some state.mixer.noise.volume,
              noiseType := state.mixer.noise.noiseType },
          external :=
            { enabled := state.mixer.external.enabled,
              volume := some state.mixer.external.volume } },
    filterCutoff := some state.filterCutoff,
    filterEmphasis := some state.filterEmphasis,
    filterContourAmount := some state.filterContourAmount,
    filterAttack := some state.filterAttack,
    filterDecay := some state.filterDecay,
    filterSustain := some state.filterSustain,
    filterModulationOn := some state.filterModulationOn,
    loudnessAttack := some state.loudnessAttack,
    loudnessDecay := some state.loudnessDecay,
    loudnessSustain := some state.loudnessSustain,
    lfoWaveform := some state.lfoWaveform,
    lfoRate := some state.lfoRate,
    modMix := some state.modMix,
    oscillatorModulationOn := some state.oscillatorModulationOn,
    glideOn := some state.glideOn,
    glideTime := some state.glideTime,
    mainVolume := some state.mainVolume,
    isMainActive := some state.isMainActive,
    keyboardControl1 := some state.keyboardControl1,
    keyboardControl2 := some state.keyboardControl2,
    osc3Control := some state.osc3Control,
    osc3FilterEgSwitch := some state.osc3FilterEgSwitch,
    noiseLfoSwitch := some state.noiseLfoSwitch,
    decaySwitchOn := some state.decaySwitchOn,
    masterTune := some state.masterTune,
    pitchWheel := some state.pitchWheel,
    modWheel := some state.modWheel,
    tunerOn := some state.tunerOn,
    auxOutput :=
      some
        { enabled := state.auxOutput.enabled,
          volume := state.auxOutput.volume } }

/-! ## Claim theorems: C5 and C9 -/

/-- `b.toString() === "true"` recovers `b`. -/
theorem boolToString_beq_true (b : Bool) : (boolToString b == "true") = b := by
  cases b <;> rfl

/-- `clampParameter` is the identity on values already inside the range. -/
theorem clampParameter_of_mem (value mn mx : ℚ) (h1 : mn ≤ value)
    (h2 : value ≤ mx) : clampParameter value mn mx = value := by
  unfold clampParameter
  rw [min_eq_right h2, max_eq_right h1]

/-- Claim C5: decoding the query string produced by encoding a fully
populated synth state reproduces every encoded field: exactly for the
boolean and string-enum fields, and through the `toString`/`parseFloat`
number codec for numeric fields (assumed exact, as it is for JS doubles) —
provided the state is valid (`filterCutoff ∈ [-4,4]`, so the decoder's
safety clamp is the identity, and `noiseType` a non-empty enum tag). -/
theorem loadState_saveState_roundtrip (numToString : ℚ → String)
    (parseFloat : String → Option ℚ)
    (hrt : ∀ q, parseFloat (numToString q) = some q)
    (hne : ∀ q, numToString q ≠ "")
    (state : SynthState)
    (hlo : -4 ≤ state.filterCutoff) (hhi : state.filterCutoff ≤ 4)
    (hnoise : state.mixer.noise.noiseType ≠ "") :
    loadStateFromURL parseFloat (saveStateToURL numToString state) =
      some (fullOverlay state) := by
  simp [saveStateToURL, loadStateFromURL, load_oscillator1, load_oscillator2,
    load_oscillator3, load_mixer, load_filterCutoff, load_filterEmphasis,
    load_filterContourAmount, load_filterAttack, load_filterDecay,
    load_filterSustain, load_filterModulationOn, load_loudnessAttack,
    load_loudnessDecay, load_loudnessSustain, load_lfoWaveform, load_lfoRate,
    load_modMix, load_oscillatorModulationOn, load_glideOn, load_glideTime,
    load_mainVolume, load_isMainActive, load_keyboardControl1,
    load_keyboardControl2, load_osc3Control, load_osc3FilterEgSwitch,
    load_noiseLfoSwitch, load_decaySwitchOn, load_masterTune, load_pitchWheel,
    load_modWheel, load_tunerOn, load_auxOutput, getParam, hasParam,
    getOrFalsy, getBool, parseAndClamp, parseOrDefault, fullOverlay,
    boolToString_beq_true, hrt, hne, hnoise, clampParameter_of_mem, hlo, hhi]

/-- An injective number serialization with a verified total inverse,
standing in for the JS `toString`/`parseFloat` pair in the C5 witness: a
rational is printed as a non-empty run of `a`s whose length encodes it. -/
def qEnc (q : ℚ) : String :=
  String.mk (List.replicate (Encodable.encode q + 1) 'a')

/-- The inverse of `qEnc` (a failed decode models `NaN`). -/
def qDec (s : String) : Option ℚ := Encodable.decode (s.length - 1)

/-- `qDec` inverts `qEnc`. -/
theorem qDec_qEnc (q : ℚ) : qDec (qEnc q) = some q := by
  unfold qDec qEnc
  simp [String.length, Encodable.encodek]

/-- `qEnc` never prints an empty string (as JS `Number#toString` never
does). -/
theorem qEnc_ne_empty (q : ℚ) : qEnc q ≠ "" := by
  unfold qEnc
  intro h
  have hlen := congrArg String.length h
  simp [String.length] at hlen

/-- A concrete fully populated synth state for the C5 witness. -/
def sampleState : SynthState :=
  { oscillator1 :=
      { waveform := "sawtooth", frequency := 440, range := "8",
        enabled := true },
    oscillator2 :=
      { waveform := "triangle", frequency := -7, range := "16",
        enabled := false },
    oscillator3 :=
      { waveform := "square", frequency := 220, range := "32",
        enabled := true },
    mixer :=
      { osc1 := { enabled := true, volume := 10 },
        osc2 := { enabled := false, volume := 5 / 2 },
        osc3 := { enabled := true, volume := 0 },
        noise := { enabled := false, volume := 3, noiseType := "white" },
        external := { enabled := false, volume := 1 } },
    filterCutoff := 0,
    filterEmphasis := 5,
    filterContourAmount := 5,
    filterAttack := 1 / 2,
    filterDecay := 0,
    filterSustain := 7,
    filterModulationOn := true,
    loudnessAttack := 1 / 2,
    loudnessDecay := 5,
    loudnessSustain := 8,
    lfoWaveform := "triangle",
    lfoRate := 5,
    modMix := 0,
    oscillatorModulationOn := false,
    glideOn := true,
    glideTime := 1 / 10,
    mainVolume := 5 / 2,
    isMainActive := true,
    keyboardControl1 := false,
    keyboardControl2 := true,
    osc3Control := false,
    osc3FilterEgSwitch := true,
    noiseLfoSwitch := false,
    decaySwitchOn := true,
    masterTune := -2,
    pitchWheel := 50,
    modWheel := 50,
    tunerOn := false,
    auxOutput := { enabled := true, volume := 4 } }

/-- Witness for C5: the round trip on `sampleState` through the concrete
`qEnc`/`qDec` number codec. -/
theorem loadState_saveState_roundtrip_witness :
    loadStateFromURL qDec (saveStateToURL qEnc sampleState) =
      some (fullOverlay sampleState) :=
  loadState_saveState_roundtrip qEnc qDec qDec_qEnc qEnc_ne_empty sampleState
    (by norm_num [sampleState]) (by norm_num [sampleState]) (by decide)

/-- Claim C9: decoding the empty query string sets no fields (the code
returns `null`, modelled as `none`: no group is populated), and decoding
exactly the four `osc1_*` pairs populates only the `oscillator1` group,
leaving every other group and field absent — for any number parser. -/
theorem loadStateFromURL_partiality (parseFloat : String → Option ℚ) :
    loadStateFromURL parseFloat [] = none ∧
    ∃ d : PartialSynthState,
      loadStateFromURL parseFloat
          [("osc1_waveform", "sawtooth"), ("osc1_freq", "440"),
           ("osc1_range", "8"), ("osc1_enabled", "true")] = some d ∧
      d.oscillator1 =
        some
          { waveform := some "sawtooth", frequency := parseFloat "440",
            range := some "8", enabled := true } ∧
      d.oscillator2 = none ∧ d.oscillator3 = none ∧ d.mixer = none ∧
      d.filterCutoff = none ∧ d.filterEmphasis = none ∧
      d.filterContourAmount = none ∧ d.filterAttack = none ∧
      d.filterDecay = none ∧ d.filterSustain = none ∧
      d.filterModulationOn = none ∧ d.loudnessAttack = none ∧
      d.loudnessDecay = none ∧ d.loudnessSustain = none ∧
      d.lfoWaveform = none ∧ d.lfoRate = none ∧ d.modMix = none ∧
      d.oscillatorModulationOn = none ∧ d.glideOn = none ∧
      d.glideTime = none ∧ d.mainVolume = none ∧ d.isMainActive = none ∧
      d.keyboardControl1 = none ∧ d.keyboardControl2 = none ∧
      d.osc3Control = none ∧ d.osc3FilterEgSwitch = none ∧
      d.noiseLfoSwitch = none ∧ d.decaySwitchOn = none ∧
      d.masterTune = none ∧ d.pitchWheel = none ∧ d.modWheel = none ∧
      d.tunerOn = none ∧ d.auxOutput = none := by
  refine ⟨rfl, _, rfl, ?_⟩
  refine ⟨rfl, rfl, rfl, rfl, rfl, rfl, rfl, rfl, rfl, rfl, rfl, rfl, rfl,
    rfl, rfl, rfl, rfl, rfl, rfl, rfl, rfl, rfl, rfl, rfl, rfl, rfl, rfl,
    rfl, rfl, rfl, rfl, rfl, rfl⟩

end Minimoog
